import Mathlib

/-!
Verification of the `learning_jax` notebook repository.

The repository consists of seven Jupyter notebooks (spread over five files;
two of the files hold two concatenated notebooks each) that exercise the JAX
framework: manual and automatic vectorization of a convolution, automatic
differentiation, gradient checkpointing, pytree utilities, JIT control-flow
behaviour, and stop-gradient tricks.

This file gives a shallow embedding of the notebook-defined functions and of
the notebooks' cell structure, and proves or refutes the specification's
claims about them.  Arrays of `float32` are modelled as lists of rationals
(exact arithmetic); per-cell name binding is modelled as explicit
defines/uses data read off the notebook sources.
-/

/-! ## The stop-gradient notebook (`src/unnamed/part_000`)

The straight-through-estimator cell defines

```python
def f(x):
    return jnp.round(x)

def straight_through_f(x):
    zero = x - jax.lax.stop_gradient(x)
    return zero + jax.lax.stop_gradient(f(x))
```

`jax.lax.stop_gradient` is the identity on values (it only affects
differentiation), so it is modelled as the identity function.  `jnp.round`
rounds to the nearest integer with ties going to the even integer
(IEEE-754 round-half-to-even), which is modelled exactly on `ℚ`.
-/

namespace StopGrad

/-- Model of `jax.lax.stop_gradient`: on values it is the identity. -/
def stop_gradient (x : ℚ) : ℚ := x

/-- Model of `jnp.round`: round to nearest integer, ties to even. -/
def jround (x : ℚ) : ℚ :=
  let n : ℤ := ⌊x⌋
  let r : ℚ := x - n
  if r < 1/2 then n
  else if 1/2 < r then n + 1
  else if n % 2 = 0 then n else n + 1

/-- The notebook's `f`: `return jnp.round(x)`. -/
def f (x : ℚ) : ℚ := jround x

/-- The notebook's `straight_through_f`:
`zero = x - stop_gradient(x); return zero + stop_gradient(f(x))`. -/
def straight_through_f (x : ℚ) : ℚ :=
  (x - stop_gradient x) + stop_gradient (f x)

end StopGrad

/-! ## The pytree notebook (second notebook in `src/gradient_checkpoint.ipynb`)

The notebook registers a custom container with JAX's pytree machinery:

```python
class RegisteredSpecial(Special): ...

def special_flatten(v):
  children = (v.x, v.y)
  aux_data = None
  return (children, aux_data)

def special_unflatten(aux_data, children):
  return RegisteredSpecial(*children)

register_pytree_node(RegisteredSpecial, special_flatten, special_unflatten)
```

`RegisteredSpecial` holds two fields `x` and `y`; flattening produces the
children pair `(v.x, v.y)` and auxiliary data `None` (modelled as
`Option Unit`), and unflattening rebuilds the container from the children.
-/

namespace Pytrees

/-- The notebook's `RegisteredSpecial` container: two fields `x` and `y`. -/
structure RegisteredSpecial (α : Type) where
  x : α
  y : α
deriving DecidableEq, Repr

/-- The notebook's `special_flatten`: returns `((v.x, v.y), None)`. -/
def special_flatten {α : Type} (v : RegisteredSpecial α) :
    (α × α) × Option Unit :=
  ((v.x, v.y), none)

/-- The notebook's `special_unflatten`: `RegisteredSpecial(*children)`. -/
def special_unflatten {α : Type} (_aux_data : Option Unit)
    (children : α × α) : RegisteredSpecial α :=
  ⟨children.1, children.2⟩

end Pytrees

/-! ## The vectorization notebook (first notebook in `src/auto_vectorization.ipynb`)

```python
def convolve(x, w):
    output = []
    for i in range(1, len(x)-1):
        output.append(jnp.dot(x[i-1:i+2], w))
    return jnp.array(output)

def manually_batched_convolve(xs, ws):
    output = []
    for i in range(xs.shape[0]):
        output.append(convolve(xs[i], ws[i]))
    return jnp.stack(output)

def manually_vectorized_convolve(xs, ws):
    output = []
    for i in range(1, xs.shape[1]-1):
        output.append(jnp.sum(xs[:, i-1:i+2] * ws, axis=1))
    return jnp.stack(output, axis=1)
```

One-dimensional arrays are lists of rationals; two-dimensional arrays are
lists of rows.  `x[a:b]` is `(x.drop a).take (b - a)`; `jnp.dot` is the sum
of pointwise products; `jnp.stack(_, axis=1)` stacks a list of column
vectors into a matrix, i.e. row `b` of the result collects entry `b` of
every column.  `jnp.stack` raises `ValueError` when given an empty list of
arrays (both with and without `axis=1`), so the two batched functions,
which end in a `jnp.stack` call, return an `Option` with `none` as the
error.  Out-of-range indexing (which would raise in Python) is modelled by
`List.getD`; the theorems' hypotheses keep all indices in range.
-/

namespace AutoVec

/-- `jnp.dot` on one-dimensional arrays: sum of pointwise products. -/
def dot (a b : List ℚ) : ℚ := (List.zipWith (· * ·) a b).sum

/-- The Python slice `x[s : s+len]`. -/
def slice (x : List ℚ) (s len : ℕ) : List ℚ := (x.drop s).take len

/-- The notebook's `convolve`: for `i in range(1, len(x)-1)` append
`jnp.dot(x[i-1:i+2], w)`.  `range(1, len(x)-1)` has `len(x)-2` elements
(clamped at zero), matching truncated subtraction on `ℕ`. -/
def convolve (x w : List ℚ) : List ℚ :=
  (List.range' 1 (x.length - 2)).map (fun i => dot (slice x (i-1) 3) w)

/-- `jnp.stack` on a list of equal-length one-dimensional arrays: raises
`ValueError` on an empty list (modelled by `none`); otherwise returns the
matrix with those rows. -/
def stack (rows : List (List ℚ)) : Option (List (List ℚ)) :=
  if rows = [] then none else some rows

/-- The notebook's `manually_batched_convolve`: for `i in range(xs.shape[0])`
append `convolve(xs[i], ws[i])`, then `jnp.stack(output)` — which raises on
an empty batch. -/
def manually_batched_convolve (xs ws : List (List ℚ)) : Option (List (List ℚ)) :=
  stack ((List.range xs.length).map (fun i => convolve (xs.getD i []) (ws.getD i [])))

/-- `xs.shape[1]` for a rectangular two-dimensional array: the length of the
first row. -/
def shape1 (xs : List (List ℚ)) : ℕ := (xs.headD []).length

/-- Elementwise product of two matrices, `A * B` in numpy. -/
def mulMat (A B : List (List ℚ)) : List (List ℚ) :=
  List.zipWith (List.zipWith (· * ·)) A B

/-- `jnp.sum(_, axis=1)`: sum each row. -/
def sumAxis1 (A : List (List ℚ)) : List ℚ := A.map List.sum

/-- The column slice `xs[:, s:s+3]`. -/
def sliceCols (A : List (List ℚ)) (s : ℕ) : List (List ℚ) :=
  A.map (fun r => slice r s 3)

/-- `jnp.stack(cols, axis=1)`: raises `ValueError` on an empty list of
columns (modelled by `none`); otherwise row `b` of the result collects
entry `b` of every column vector in `cols`. -/
def stackAxis1 (cols : List (List ℚ)) : Option (List (List ℚ)) :=
  if cols = [] then none
  else some ((List.range (cols.headD []).length).map
    (fun b => cols.map (fun c => c.getD b 0)))

/-- The notebook's `manually_vectorized_convolve`: for
`i in range(1, xs.shape[1]-1)` append `jnp.sum(xs[:, i-1:i+2] * ws, axis=1)`,
then `jnp.stack(output, axis=1)`. -/
def manually_vectorized_convolve (xs ws : List (List ℚ)) : Option (List (List ℚ)) :=
  stackAxis1 ((List.range' 1 (shape1 xs - 2)).map
    (fun i => sumAxis1 (mulMat (sliceCols xs (i-1)) ws)))

end AutoVec

/-! ## Syntactic embedding of notebook-defined function bodies

Claim C1 is about the *shape* of the code: whether each notebook-defined
function is a direct wrapper of a single framework API call.  For this a
small abstract syntax of the relevant Python fragment is embedded, and the
body of `convolve` (cited by the claim) is transcribed into it.
-/

namespace PySrc

/-- Python expressions of the fragment used by the notebooks. -/
inductive PyExpr where
  | nameE (s : String)
  | numE (n : ℤ)
  | listE (es : List PyExpr)
  | callE (fn : String) (args : List PyExpr)
  | binopE (op : String) (a b : PyExpr)
  | sliceE (base : String) (lo hi : PyExpr)

/-- Python statements of the fragment used by the notebooks. -/
inductive PyStmt where
  | assign (tgt : String) (e : PyExpr)
  | forRange (v : String) (lo hi : PyExpr) (body : List PyStmt)
  | exprStmt (e : PyExpr)
  | ret (e : PyExpr)

/-- Statement-level test: is this statement a `for` loop? -/
def isForLoop : PyStmt → Bool
  | .forRange _ _ _ _ => true
  | _ => false

/-- A function body contains control logic of its own when one of its
top-level statements is a `for` loop. -/
def hasForLoop (body : List PyStmt) : Bool := body.any isForLoop

/-- Is the expression a plain variable reference? -/
def isNameArg : PyExpr → Bool
  | .nameE _ => true
  | _ => false

/-- Framework transformation/array APIs invoked by the notebooks. -/
def frameworkAPIs : List String :=
  ["jnp.dot", "jnp.array", "jnp.stack", "jnp.sum", "jnp.round", "jnp.tanh",
   "jax.vmap", "jax.jit", "jax.grad", "jax.checkpoint", "jax.vjp",
   "jax.jacfwd", "jax.jacrev", "jax.tree.map"]

/-- A body *directly wraps a single framework API call* when it consists of
one `return` statement whose expression is a call to a framework API with
plain variable arguments. -/
def isDirectAPIWrapper : List PyStmt → Bool
  | [.ret (.callE fn args)] => frameworkAPIs.contains fn && args.all isNameArg
  | _ => false

/-- The body of `convolve` from `src/auto_vectorization.ipynb`:

```python
output = []
for i in range(1, len(x)-1):
    output.append(jnp.dot(x[i-1:i+2], w))
return jnp.array(output)
``` -/
def convolve_body : List PyStmt :=
  [ .assign "output" (.listE []),
    .forRange "i" (.numE 1) (.binopE "-" (.callE "len" [.nameE "x"]) (.numE 1))
      [ .exprStmt (.callE "output.append"
          [ .callE "jnp.dot"
              [ .sliceE "x" (.binopE "-" (.nameE "i") (.numE 1))
                  (.binopE "+" (.nameE "i") (.numE 2)),
                .nameE "w" ] ]) ],
    .ret (.callE "jnp.array" [.nameE "output"]) ]

end PySrc

/-! ## JIT control flow (`src/unnamed/part_001` and the jitted cells elsewhere)

Claim C4 concerns every jit-compiled function in the notebooks: whether it
branches in Python on the value of an argument, whether the cell is
commented out, and whether the branching argument is declared static.  The
records below transcribe, in source order, every application of `jit` in
the repository.  The `static_argnames` example

```python
def f(x):
  if x < 3:
    return 3. * x ** 2
  else:
    return -4 * x

f = jit(f, static_argnames='x')
print(f(2.))   # 12.0
```

is also embedded functionally so the advertised value `12.0` can be checked.
-/

namespace ControlFlow

/-- One application of `jit` to a function in the notebooks. -/
structure JitUse where
  fn : String
  branchesOnArgValue : Bool
  commentedOut : Bool
  staticArg : Bool

/-- Every `jit` application in the repository, in source order:
nine in `src/unnamed/part_001` (including the four inside the two
commented-out TracerBoolConversionError cells), one in
`src/auto_vectorization.ipynb`, two in its concatenated introduction
notebook, and one in the pytree notebook of `src/gradient_checkpoint.ipynb`. -/
def jitUses : List JitUse :=
  [ ⟨"f (loop range(3))", false, false, false⟩,
    ⟨"g (loop over x.shape[0])", false, false, false⟩,
    ⟨"f (if x < 3, first commented cell)", true, true, false⟩,
    ⟨"g ((x > 0) and (x < 3), commented)", true, true, false⟩,
    ⟨"f (x ** 2)", false, false, false⟩,
    ⟨"f (if x < 3, second commented cell)", true, true, false⟩,
    ⟨"f (jit(f, static_argnames of x))", true, false, true⟩,
    ⟨"f (jit(f, static_argnames of n))", true, false, true⟩,
    ⟨"jax_check_positive_even", false, false, false⟩,
    ⟨"jitted_batch_convolve", false, false, false⟩,
    ⟨"jitted_function (simple_graph)", false, false, false⟩,
    ⟨"jitted_grad_function", false, false, false⟩,
    ⟨"update (MLP SGD step)", false, false, false⟩ ]

/-- The `static_argnames` example function: with `x` static the Python
branch is resolved at trace time, so the call computes the true branch. -/
def f_static (x : ℚ) : ℚ := if x < 3 then 3 * x^2 else -4 * x

end ControlFlow

/-! ## Cell structure of the seven notebooks

Claims C2, C6 and C7 are about the notebooks' cell-level structure: which
global names each code cell binds, which global names its top-level
statements reference, and which framework transformations each notebook
applies.  Each code cell is transcribed as a `defines`/`uses` pair read off
the source, in execution order.  `uses` lists the global names referenced
by the cell's top-level statements that the same cell does not itself bind;
Python builtins (`len`, `range`, `print`, `object`, ...) and names bound by
the cell (via `import`, `def`, `class`, or assignment) are excluded.
Markdown cells, empty cells and fully commented-out cells bind and
reference nothing.
-/

namespace Notebooks

/-- One executed code cell: the global names it binds and the global names
its top-level statements reference without binding them. -/
structure Cell where
  defines : List String
  uses : List String

/-- First notebook of `src/auto_vectorization.ipynb` (manual and automatic
vectorization of `convolve`). -/
def vectorizationNb : List Cell :=
  [ ⟨["jax", "jnp", "x", "w", "convolve"], []⟩,
    ⟨["xs", "ws", "manually_batched_convolve"], ["jnp", "x", "w"]⟩,
    ⟨["manually_vectorized_convolve"], ["xs", "ws"]⟩,
    ⟨["auto_batch_convolve"], ["jax", "convolve", "xs", "ws"]⟩,
    ⟨["auto_batch_convolve2", "xst", "wst"], ["jax", "convolve", "jnp", "xs", "ws"]⟩,
    ⟨["batch_convolve3"], ["jax", "convolve", "xs", "w"]⟩,
    ⟨["jitted_batch_convolve"], ["jax", "convolve", "xs", "ws"]⟩ ]

/-- Second notebook of `src/auto_vectorization.ipynb` (introduction:
arrays, devices, PRNG keys, jaxpr, grad, jit). -/
def introNb : List Cell :=
  [ ⟨["os", "math", "np", "plt", "matplotlib", "set_matplotlib_formats",
      "to_rgba", "sns", "time", "tqdm"], []⟩,
    ⟨["jax", "jnp"], []⟩,
    ⟨["a"], ["jnp"]⟩,
    ⟨["b"], ["jnp"]⟩,
    ⟨[], ["b"]⟩,
    ⟨[], ["b"]⟩,
    ⟨["b_cpu"], ["jax", "b"]⟩,
    ⟨["b_gpu"], ["jax", "b_cpu"]⟩,
    ⟨[], ["b_cpu", "b_gpu"]⟩,
    ⟨["b_new"], ["b"]⟩,
    ⟨["rng"], ["jax"]⟩,
    ⟨["jax_random_number_1", "jax_random_number_2",
      "np_random_number_1", "np_random_number_2"], ["jax", "rng", "np"]⟩,
    ⟨["rng", "subkey1", "subkey2", "jax_random_number_1", "jax_random_number_2"],
      ["jax", "rng"]⟩,
    ⟨["simple_graph", "inp"], ["jnp"]⟩,
    ⟨[], ["jax", "simple_graph", "inp"]⟩,
    ⟨["global_list", "norm"], ["jax", "inp"]⟩,
    ⟨["grad_function", "gradients"], ["jax", "simple_graph", "inp"]⟩,
    ⟨[], ["jax", "grad_function", "inp"]⟩,
    ⟨["val_grad_function"], ["jax", "simple_graph", "inp"]⟩,
    ⟨["jitted_function"], ["jax", "simple_graph"]⟩,
    ⟨["rng", "normal_rng", "large_input"], ["jax", "rng", "jitted_function"]⟩,
    ⟨[], ["simple_graph", "large_input"]⟩,
    ⟨[], ["jitted_function", "large_input"]⟩,
    ⟨["jitted_grad_function"], ["jax", "grad_function", "large_input"]⟩,
    ⟨[], ["grad_function", "large_input"]⟩,
    ⟨[], ["jitted_grad_function", "large_input"]⟩ ]

/-- `src/auto_differentiation.ipynb` (grad, logistic regression,
value_and_grad, numerical checking). -/
def autodiffNb : List Cell :=
  [ ⟨["jax", "jnp", "grad"], []⟩,
    ⟨["grad_tanh"], ["grad", "jnp"]⟩,
    ⟨[], ["grad", "jnp"]⟩,
    ⟨["f", "dfdx"], ["grad"]⟩,
    ⟨["d2fdx", "d3fdx", "d4fdx"], ["jax", "dfdx"]⟩,
    ⟨["key", "sigmoid", "predict", "inputs", "targets"], ["jax", "jnp"]⟩,
    ⟨["loss"], []⟩,
    ⟨["key", "W_key", "b_key", "W", "b"], ["jax", "key"]⟩,
    ⟨["W_grad", "b_grad"], ["grad", "loss", "W", "b"]⟩,
    ⟨["loss2"], ["grad", "W", "b"]⟩,
    ⟨["loss_value", "Wb_grad"], ["jax", "loss", "W", "b"]⟩,
    ⟨["eps", "b_grad_numerical", "key", "subkey", "vec", "unitvec",
      "W_grad_numerical"], ["loss", "W", "b", "grad", "jax", "jnp"]⟩ ]

/-- First notebook of `src/gradient_checkpoint.ipynb` (checkpoint policies
and residual inspection). -/
def checkpointNb : List Cell :=
  [ ⟨["jax", "jnp", "g", "f", "W1", "W2", "W3", "x", "print_saved_residuals"], []⟩,
    ⟨["f2"], ["jax", "W1", "W2", "W3", "x"]⟩,
    ⟨["f3"], ["jax", "f", "W1", "W2", "W3", "x"]⟩,
    ⟨["checkpoint_name", "f4"], ["jax", "W1", "W2", "W3", "x"]⟩,
    ⟨["tree_flatten", "tree_unflatten", "Console", "rich", "Table",
      "print_fwd_bwd", "_renderable_repr"], []⟩,
    ⟨[], ["print_fwd_bwd", "f", "W1", "W2", "W3", "x"]⟩,
    ⟨[], ["print_fwd_bwd", "f3", "W1", "W2", "W3", "x"]⟩ ]

/-- Second notebook of `src/gradient_checkpoint.ipynb` (pytrees: tree.map,
MLP parameters, custom registration, tree_transpose). -/
def pytreesNb : List Cell :=
  [ ⟨["jax", "jnp"], []⟩,
    ⟨["example_trees", "pytree", "leaves"], ["jax", "jnp"]⟩,
    ⟨["list_of_lists"], ["jax"]⟩,
    ⟨["another_list"], ["jax", "list_of_lists"]⟩,
    ⟨["np", "init_mlp_params", "params"], []⟩,
    ⟨[], ["jax", "params"]⟩,
    ⟨["forward", "loss_fn", "lr", "update"], ["jax"]⟩,
    ⟨["Special"], ["jax"]⟩,
    ⟨[], []⟩,
    ⟨["register_pytree_node", "RegisteredSpecial", "special_flatten",
      "special_unflatten"], ["Special"]⟩,
    ⟨[], ["jax", "RegisteredSpecial"]⟩,
    ⟨["NamedTuple", "Any", "MyOtherContainer"], ["jax"]⟩,
    ⟨["dataclass", "functools", "MyDataclassContainer"], ["jax", "jnp", "Any"]⟩,
    ⟨["vmap"], []⟩,
    ⟨["collections", "ATuple", "tree", "flattened", "key_path", "value"], ["jax"]⟩,
    ⟨[], ["flattened", "jax"]⟩,
    ⟨["tree_transpose", "episode_steps"], []⟩,
    ⟨[], ["jax", "episode_steps"]⟩ ]

/-- `src/unnamed/part_000` (higher-order derivatives, MAML cell,
stop_gradient, jacfwd/jacrev).  The MAML cell defines `meta_loss_fn` and
then evaluates `jax.grad(meta_loss_fn)(params, data)` at top level, where
`params`, `data` (and, inside the body, `loss_fn` and `lr`) are bound by no
cell of the notebook. -/
def higherOrderNb : List Cell :=
  [ ⟨["jax", "jnp", "grad", "jit", "vmap", "random", "key"], []⟩,
    ⟨["hessian", "f"], ["jax", "jnp"]⟩,
    ⟨["meta_loss_fn", "meta_grads"], ["jax", "params", "data"]⟩,
    ⟨["value_fn", "theta", "s_tm1", "r_t", "s_t"], ["jnp"]⟩,
    ⟨["td_loss", "td_update", "delta_theta"], ["jax", "theta", "s_tm1", "r_t", "s_t"]⟩,
    ⟨["s_grad", "delta_theta"], ["jax", "value_fn", "theta", "s_tm1", "r_t", "s_t"]⟩,
    ⟨["f", "straight_through_f"], ["jnp", "jax"]⟩,
    ⟨["hvp"], []⟩,
    ⟨["jacfwd", "jacrev", "sigmoid", "predict", "inputs", "key", "W_key",
      "b_key", "W", "b", "f", "J"], ["random", "key", "jnp"]⟩,
    ⟨["predict_dic", "J_dict", "k", "v"], ["jacrev", "W", "b", "inputs"]⟩,
    ⟨["hessian", "H"], ["jacfwd", "jacrev", "f", "W"]⟩ ]

/-- `src/unnamed/part_001` (jit and control flow: static_argnames, lax
primitives, logical operators). -/
def jitControlFlowNb : List Cell :=
  [ ⟨["grad", "jit", "jnp"], []⟩,
    ⟨["f"], ["jit"]⟩,
    ⟨["g"], ["jit", "jnp"]⟩,
    ⟨[], []⟩,
    ⟨["f", "result1", "result2"], ["jit", "jnp"]⟩,
    ⟨[], []⟩,
    ⟨["f"], ["jit"]⟩,
    ⟨["f", "f_jitted", "result"], ["jit", "jnp"]⟩,
    ⟨["cond"], []⟩,
    ⟨["lax", "operand"], ["jnp"]⟩,
    ⟨["condition", "on_true", "on_false", "result"], ["jnp", "lax"]⟩,
    ⟨["f1", "f2", "f3", "index", "x", "result"], ["lax"]⟩,
    ⟨["condition", "on_true", "on_false", "result"], ["jnp"]⟩,
    ⟨["x", "conditions", "functions", "result"], ["jnp"]⟩,
    ⟨["while_loop"], []⟩,
    ⟨["init_val", "condition", "function_body", "result"], ["lax"]⟩,
    ⟨["fori_loop"], []⟩,
    ⟨["init_val", "start", "stop", "function_body"], ["lax"]⟩,
    ⟨["python_check_positive_even", "jax_check_positive_even"], ["jit"]⟩,
    ⟨["x"], ["jnp", "jax_check_positive_even"]⟩,
    ⟨["f"], ["grad"]⟩ ]

/-- All seven notebooks of the repository, in file order. -/
def allNotebooks : List (List Cell) :=
  [vectorizationNb, introNb, autodiffNb, checkpointNb, pytreesNb,
   higherOrderNb, jitControlFlowNb]

/-- Running the cells in order with an environment of already-bound global
names: every cell's `uses` must already be bound. -/
def cellsOk (env : List String) : List Cell → Bool
  | [] => true
  | c :: rest => c.uses.all (fun u => env.contains u) && cellsOk (env ++ c.defines) rest

/-- A notebook is self-contained when executing its cells in order in a
fresh interpreter resolves every referenced global name, i.e. no cell
fails with a NameError. -/
def selfContained (nb : List Cell) : Bool := cellsOk [] nb

/-- Some name bound by one cell is referenced by a strictly later cell of
the same notebook. -/
def readsLater (nb : List Cell) : Bool :=
  (List.range nb.length).any (fun i =>
    (List.range nb.length).any (fun j =>
      decide (i < j) &&
        (nb.getD i ⟨[], []⟩).defines.any
          (fun n => (nb.getD j ⟨[], []⟩).uses.contains n)))

/-- The framework transformations named by the specification. -/
def coreTransforms : List String :=
  ["grad", "jit", "vmap", "jacfwd", "jacrev", "checkpoint", "pytree_registration"]

/-- Which of the seven transformations each notebook applies, in the same
order as `allNotebooks`: `jax.vmap(convolve)` and `jax.jit(jax.vmap(convolve))`;
`jax.grad(simple_graph)` and `jax.jit(simple_graph)`; `grad(jnp.tanh)` and
friends; `jax.checkpoint(g)`; `@jax.jit update` and `register_pytree_node`;
`jax.grad`, `jacfwd`, `jacrev`; `@jit` and `grad(f)`. -/
def appliedTransforms : List (List String) :=
  [ ["vmap", "jit"],
    ["grad", "jit"],
    ["grad"],
    ["checkpoint"],
    ["jit", "pytree_registration"],
    ["grad", "jacfwd", "jacrev"],
    ["jit", "grad"] ]

end Notebooks

/-! ## `tree_transpose` (pytree notebook of `src/gradient_checkpoint.ipynb`)

```python
def tree_transpose(list_of_trees):
    return jax.tree.map(lambda *xs: list(xs), *list_of_trees)

episode_steps = [dict(t=1, obs=3), dict(t=2, obs=4)]
tree_transpose(episode_steps)   # {'obs': [3, 4], 't': [1, 2]}
```

Pytrees are modelled by an inductive type with leaves, list nodes and dict
nodes (assoc lists in JAX's canonical sorted-key order).  With several tree
arguments `jax.tree.map` walks the structure of the *first* tree; at each
of its leaves it collects the leaf value together with the corresponding
(sub)trees of the remaining arguments and applies the mapped function;
structure mismatches raise, modelled by `Option`.  For
`lambda *xs: list(xs)` the applied function builds the Python list of its
arguments, i.e. a list node holding the first tree's leaf followed by the
other trees' subtrees.  `jax.tree.map` with no tree argument raises
(`none`).
-/

namespace Pytrees

/-- A Python object as a pytree: a leaf value, a list, or a dict whose keys
are kept in JAX's canonical sorted order. -/
inductive PyTree (α : Type) where
  | leaf (a : α)
  | listNode (ts : List (PyTree α))
  | dictNode (ts : List (String × PyTree α))

/-- First element of a list node. -/
def headVal {α : Type} : PyTree α → Option (PyTree α)
  | .listNode (t :: _) => some t
  | _ => none

/-- A list node without its first element. -/
def tailList {α : Type} : PyTree α → Option (PyTree α)
  | .listNode (_ :: ts) => some (.listNode ts)
  | _ => none

/-- Value of the first entry of a dict node, which must have key `k`. -/
def headDictVal {α : Type} (k : String) : PyTree α → Option (PyTree α)
  | .dictNode ((k2, t) :: _) => if k2 = k then some t else none
  | _ => none

/-- A dict node without its first entry. -/
def tailDict {α : Type} : PyTree α → Option (PyTree α)
  | .dictNode (_ :: ts) => some (.dictNode ts)
  | _ => none

/-- Is the tree an empty list node? -/
def isEmptyListNode {α : Type} : PyTree α → Bool
  | .listNode [] => true
  | _ => false

/-- Is the tree an empty dict node? -/
def isEmptyDictNode {α : Type} : PyTree α → Bool
  | .dictNode [] => true
  | _ => false

/-- Prepend an entry to a dict node. -/
def consDict {α : Type} (k : String) (t : PyTree α) : PyTree α → Option (PyTree α)
  | .dictNode ts => some (.dictNode ((k, t) :: ts))
  | _ => none

/-- Prepend an element to a list node. -/
def consList {α : Type} (t : PyTree α) : PyTree α → Option (PyTree α)
  | .listNode ts => some (.listNode (t :: ts))
  | _ => none

/-- `jax.tree.map(lambda *xs: list(xs), t, *rest)`: walk the structure of
`t`; at each leaf build the list node of that leaf and the corresponding
subtrees of `rest`; fail on structure mismatch. -/
def transposeGo {α : Type} : PyTree α → List (PyTree α) → Option (PyTree α)
  | .leaf a, rest => some (.listNode (.leaf a :: rest))
  | .listNode [], rest =>
      if rest.all isEmptyListNode then some (.listNode []) else none
  | .listNode (t :: ts), rest =>
      (rest.mapM headVal).bind (fun hs =>
      (rest.mapM tailList).bind (fun tls =>
      (transposeGo t hs).bind (fun t2 =>
      (transposeGo (.listNode ts) tls).bind (fun r2 =>
      consList t2 r2))))
  | .dictNode [], rest =>
      if rest.all isEmptyDictNode then some (.dictNode []) else none
  | .dictNode ((k, t) :: ts), rest =>
      (rest.mapM (headDictVal k)).bind (fun hs =>
      (rest.mapM tailDict).bind (fun tls =>
      (transposeGo t hs).bind (fun t2 =>
      (transposeGo (.dictNode ts) tls).bind (fun r2 =>
      consDict k t2 r2))))
termination_by t _ => sizeOf t

/-- The notebook's `tree_transpose`. -/
def tree_transpose {α : Type} (list_of_trees : List (PyTree α)) : Option (PyTree α) :=
  match list_of_trees with
  | [] => none
  | t :: ts => transposeGo t ts

/-- A flat dictionary with keys `ks` and leaf values `vs`, as a pytree. -/
def dictOfLeaves {α : Type} (ks : List String) (vs : List α) : PyTree α :=
  .dictNode (List.zipWith (fun k v => (k, PyTree.leaf v)) ks vs)

end Pytrees

/-! ## Helper lemmas -/

/-- Reindexing a map over `range' 1 m` by `i - 1` gives a map over `range m`. -/
theorem map_range'_one_sub {β : Type} (g : ℕ → β) (m : ℕ) :
    (List.range' 1 m).map (fun i => g (i - 1)) = (List.range m).map g := by
  rw [List.range'_eq_map_range, List.map_map]
  apply List.map_congr_left
  intro j _
  simp [Nat.add_sub_cancel_left]

/-- `getD` at a successor index reads the tail. -/
theorem getD_succ_eq_tail_getD {α : Type} (vs : List α) (i : ℕ) (d : α) :
    vs.getD (i+1) d = vs.tail.getD i d := by
  cases vs <;> rfl

/-- `mapM` over `Option` succeeds pointwise when every element does. -/
theorem mapM_eq_map_of_forall {α β : Type} (l : List α) (f : α → Option β)
    (g : α → β) (h : ∀ x ∈ l, f x = some (g x)) :
    l.mapM f = some (l.map g) := by
  induction l with
  | nil => rfl
  | cons a l ih =>
    rw [List.mapM_cons, h a (by simp), ih (fun x hx => h x (by simp [hx]))]
    rfl

/-- `mapM` after `map` fuses. -/
theorem mapM_map_fuse {α β γ : Type} (l : List α) (f : α → β) (g : β → Option γ) :
    (l.map f).mapM g = l.mapM (fun x => g (f x)) := by
  induction l with
  | nil => rfl
  | cons a l ih => rw [List.map_cons, List.mapM_cons, List.mapM_cons, ih]

/-! ## Claim C9 -/

/-- Claim C9: for every input `x`, the term `x - stop_gradient(x)` evaluates
to exactly zero, and `straight_through_f(x)` equals `f(x)`, i.e. `round(x)`,
on the forward pass. -/
theorem straight_through_f_agrees_with_f (x : ℚ) :
    x - StopGrad.stop_gradient x = 0 ∧
    StopGrad.straight_through_f x = StopGrad.f x := by
  refine ⟨?_, ?_⟩
  · simp [StopGrad.stop_gradient]
  · simp [StopGrad.straight_through_f, StopGrad.stop_gradient]

/-- Witness for C9 at the notebook input `3.2`. -/
theorem straight_through_f_agrees_with_f_witness :
    (16/5 : ℚ) - StopGrad.stop_gradient (16/5) = 0 ∧
    StopGrad.straight_through_f (16/5) = StopGrad.f (16/5) :=
  straight_through_f_agrees_with_f (16/5)

/-! ## Claim C5 -/

/-- Claim C5 counterexample: the repository does define a pair of operations
required to satisfy a flatten/unflatten round-trip law — `special_flatten`
and `special_unflatten`, registered with `register_pytree_node` — and at the
notebook value `RegisteredSpecial(2, 4)` the round trip reconstructs the
value. -/
theorem special_roundtrip_at_2_4 :
    Pytrees.special_unflatten
        (Pytrees.special_flatten (⟨2, 4⟩ : Pytrees.RegisteredSpecial ℤ)).2
        (Pytrees.special_flatten (⟨2, 4⟩ : Pytrees.RegisteredSpecial ℤ)).1
      = ⟨2, 4⟩ := rfl

/-- Claim C5 (amended): the repository defines exactly one pair of
operations subject to a flatten/unflatten round-trip law, `special_flatten`
and `special_unflatten` registered via `register_pytree_node`, and that
pair does satisfy the law: unflattening the children and auxiliary data
produced by flattening reconstructs the container.  All other invariants
belong to the external framework. -/
theorem special_flatten_unflatten_roundtrip {α : Type}
    (v : Pytrees.RegisteredSpecial α) :
    Pytrees.special_unflatten (Pytrees.special_flatten v).2
      (Pytrees.special_flatten v).1 = v := rfl

/-- Witness for the amended C5 at `RegisteredSpecial(0, 1)`. -/
theorem special_flatten_unflatten_roundtrip_witness :
    Pytrees.special_unflatten
        (Pytrees.special_flatten (⟨0, 1⟩ : Pytrees.RegisteredSpecial ℤ)).2
        (Pytrees.special_flatten (⟨0, 1⟩ : Pytrees.RegisteredSpecial ℤ)).1
      = ⟨0, 1⟩ :=
  special_flatten_unflatten_roundtrip ⟨0, 1⟩

/-! ## Claim C4 -/

/-- Claim C4: every jit application in the notebooks either does not branch
in Python on an argument value, or sits in a commented-out cell, or
declares the branching argument static; and the `static_argnames` example
`jit(f, static_argnames of x)` at input `2.0` returns `12.0`. -/
theorem jit_branching_handled :
    (ControlFlow.jitUses.all (fun r =>
      !r.branchesOnArgValue || r.commentedOut || r.staticArg)) = true ∧
    ControlFlow.f_static 2 = 12 := by
  refine ⟨rfl, ?_⟩
  norm_num [ControlFlow.f_static]

/-! ## Claim C7 -/

/-- Claim C7: every one of the seven notebooks applies at least one of the
transformations `grad`, `jit`, `vmap`, `jacfwd`, `jacrev`, `checkpoint` or
pytree registration. -/
theorem every_notebook_applies_core_transform :
    Notebooks.appliedTransforms.length = Notebooks.allNotebooks.length ∧
    (Notebooks.appliedTransforms.all (fun ts =>
      ts.any (fun t => Notebooks.coreTransforms.contains t))) = true := by
  exact ⟨rfl, rfl⟩

/-! ## Claim C2 -/

/-- Claim C2 counterexample: the higher-order-derivatives notebook
(`src/unnamed/part_000`) is not self-contained — executing its cells in
order in a fresh interpreter fails, because the MAML cell references
`params` and `data`, which no earlier cell defines. -/
theorem higher_order_nb_not_self_contained :
    Notebooks.selfContained Notebooks.higherOrderNb = false := rfl

/-- Claim C2 (amended): every notebook except the higher-order-derivatives
notebook (`src/unnamed/part_000`) is self-contained; in that notebook the
MAML cell references the names `params` and `data`, which no cell of the
notebook defines, so executing its cells in order in a fresh interpreter
fails with an undefined-name error.  No notebook consumes state produced
by another notebook. -/
theorem notebooks_self_contained_except_maml :
    Notebooks.allNotebooks.map Notebooks.selfContained
      = [true, true, true, true, true, false, true] ∧
    "params" ∈ (Notebooks.higherOrderNb.getD 2 ⟨[], []⟩).uses ∧
    "data" ∈ (Notebooks.higherOrderNb.getD 2 ⟨[], []⟩).uses ∧
    (Notebooks.higherOrderNb.all
      (fun c => !(c.defines.contains "params" || c.defines.contains "data"))) = true := by
  refine ⟨rfl, ?_, ?_, rfl⟩ <;> decide

/-! ## Claim C6 -/

/-- Claim C6 counterexample: a value assigned in one cell is read by a
later cell of the same notebook — in `src/auto_differentiation.ipynb` the
parameter-initialisation cell binds `W` and `b` and the gradient cells read
them. -/
theorem autodiff_nb_reads_values_across_cells :
    Notebooks.readsLater Notebooks.autodiffNb = true := rfl

/-- Claim C6 (amended): example data does have a lifecycle beyond a single
cell: in the auto-differentiation notebook the cell at index 7 assigns the
parameters `W` and `b`, the cell at index 8 reads both, and the
value-and-grad cell at index 10 reads both again. -/
theorem autodiff_W_b_persist_across_cells :
    "W" ∈ (Notebooks.autodiffNb.getD 7 ⟨[], []⟩).defines ∧
    "b" ∈ (Notebooks.autodiffNb.getD 7 ⟨[], []⟩).defines ∧
    "W" ∈ (Notebooks.autodiffNb.getD 8 ⟨[], []⟩).uses ∧
    "b" ∈ (Notebooks.autodiffNb.getD 8 ⟨[], []⟩).uses ∧
    "W" ∈ (Notebooks.autodiffNb.getD 10 ⟨[], []⟩).uses ∧
    "b" ∈ (Notebooks.autodiffNb.getD 10 ⟨[], []⟩).uses := by
  decide

/-! ## Claim C1 -/

/-- Claim C1 counterexample: `convolve` (cited by the claim at
`src/auto_vectorization.ipynb`) is not a direct wrapper of a single
framework API call — its body is an assignment, a `for` loop and a return,
not a single `return api(...)`. -/
theorem convolve_not_direct_api_wrapper :
    PySrc.isDirectAPIWrapper PySrc.convolve_body = false := rfl

/-- Claim C1 (amended): not every notebook-defined function directly wraps
a single framework API call: `convolve` implements control logic of its own,
a Python `for` loop computing a sliding-window convolution (on the
notebook input `arange(5)` and weights `[2., 3., 4.]` it computes
`[11., 20., 29.]`). -/
theorem convolve_implements_own_loop :
    PySrc.hasForLoop PySrc.convolve_body = true ∧
    AutoVec.convolve [0, 1, 2, 3, 4] [2, 3, 4] = [11, 20, 29] := by
  refine ⟨rfl, ?_⟩
  norm_num [AutoVec.convolve, AutoVec.dot, AutoVec.slice, List.range']

/-! ## Claim C3 -/

/-- `convolve` expressed as a map over `range (len x - 2)`. -/
theorem convolve_eq_range (x w : List ℚ) :
    AutoVec.convolve x w
      = (List.range (x.length - 2)).map
          (fun j => AutoVec.dot (AutoVec.slice x j 3) w) := by
  unfold AutoVec.convolve
  exact map_range'_one_sub (fun j => AutoVec.dot (AutoVec.slice x j 3) w) _

/-- One column of the vectorized computation: the row-sum of the sliced
elementwise product pairs each row of `xs` with its weight row. -/
theorem col_sum_eq (xs ws : List (List ℚ)) (s : ℕ) :
    AutoVec.sumAxis1 (AutoVec.mulMat (AutoVec.sliceCols xs s) ws)
      = List.zipWith (fun r w => AutoVec.dot (AutoVec.slice r s 3) w) xs ws := by
  simp [AutoVec.sumAxis1, AutoVec.mulMat, AutoVec.sliceCols,
    List.zipWith_map_left, List.map_zipWith, AutoVec.dot]

/-- `stackAxis1` of a nonempty list of equal-length columns succeeds, as a
map over row indices. -/
theorem stackAxis1_of_cols (cols : List (List ℚ)) (B : ℕ)
    (hne : cols ≠ []) (hlen : ∀ c ∈ cols, c.length = B) :
    AutoVec.stackAxis1 cols
      = some ((List.range B).map (fun b => cols.map (fun c => c.getD b 0))) := by
  rcases cols with _ | ⟨c0, cols'⟩
  · exact absurd rfl hne
  · unfold AutoVec.stackAxis1
    rw [if_neg (by simp), List.headD_cons, hlen c0 (by simp)]

/-- On a nonempty batch the loop-per-example and the axis-vectorized
batched convolutions agree. -/
theorem batched_eq_vectorized (xs ws : List (List ℚ)) (n : ℕ)
    (hne : xs ≠ []) (hB : ws.length = xs.length) (hn : 3 ≤ n)
    (hx : ∀ r ∈ xs, r.length = n) :
    AutoVec.manually_batched_convolve xs ws
      = AutoVec.manually_vectorized_convolve xs ws := by
  have hL : AutoVec.manually_batched_convolve xs ws
      = AutoVec.stack ((List.range xs.length).map (fun b =>
          (List.range (n - 2)).map (fun j =>
            AutoVec.dot (AutoVec.slice (xs.getD b []) j 3) (ws.getD b [])))) := by
    unfold AutoVec.manually_batched_convolve
    congr 1
    apply List.map_congr_left
    intro b hb
    rw [List.mem_range] at hb
    have hlen : (xs.getD b []).length = n := by
      rw [List.getD_eq_getElem _ _ hb]
      exact hx _ (List.getElem_mem hb)
    rw [convolve_eq_range, hlen]
  rcases xs with _ | ⟨x0, xs'⟩
  · exact absurd rfl hne
  · have hx0 : x0.length = n := hx x0 (by simp)
    obtain ⟨m, hm⟩ : ∃ m, n - 2 = m + 1 := ⟨n - 3, by omega⟩
    have hcol : ∀ s : ℕ,
        (List.zipWith (fun r w => AutoVec.dot (AutoVec.slice r s 3) w)
          (x0 :: xs') ws).length = (x0 :: xs').length := by
      intro s
      rw [List.length_zipWith, hB, min_self]
    have hR : AutoVec.manually_vectorized_convolve (x0 :: xs') ws
        = some ((List.range (x0 :: xs').length).map (fun b =>
            (List.range (n - 2)).map (fun j =>
              AutoVec.dot (AutoVec.slice ((x0 :: xs').getD b []) j 3)
                (ws.getD b [])))) := by
      unfold AutoVec.manually_vectorized_convolve
      have hsh : AutoVec.shape1 (x0 :: xs') = n := hx0
      rw [hsh]
      have hcols : (List.range' 1 (n - 2)).map
            (fun i => AutoVec.sumAxis1
              (AutoVec.mulMat (AutoVec.sliceCols (x0 :: xs') (i - 1)) ws))
          = (List.range' 1 (n - 2)).map
            (fun i => List.zipWith
              (fun r w => AutoVec.dot (AutoVec.slice r (i - 1) 3) w)
              (x0 :: xs') ws) :=
        List.map_congr_left (fun i _ => col_sum_eq (x0 :: xs') ws (i - 1))
      rw [hcols]
      rw [stackAxis1_of_cols _ (x0 :: xs').length
        (by rw [hm]; simp [List.range'_succ])
        (by
          intro c hc
          rw [List.mem_map] at hc
          obtain ⟨i, _, rfl⟩ := hc
          exact hcol (i - 1))]
      congr 1
      apply List.map_congr_left
      intro b hb
      rw [List.mem_range] at hb
      have hbws : b < ws.length := by rw [hB]; exact hb
      rw [List.map_map]
      have hFi : ∀ i ∈ List.range' 1 (n - 2),
          ((fun c => c.getD b 0) ∘ fun i => List.zipWith
              (fun r w => AutoVec.dot (AutoVec.slice r (i - 1) 3) w)
              (x0 :: xs') ws) i
            = AutoVec.dot (AutoVec.slice ((x0 :: xs').getD b []) (i - 1) 3)
                (ws.getD b []) := by
        intro i _
        have hblt : b < (List.zipWith
            (fun r w => AutoVec.dot (AutoVec.slice r (i - 1) 3) w)
            (x0 :: xs') ws).length := by
          rw [hcol]; exact hb
        simp only [Function.comp_apply]
        rw [List.getD_eq_getElem _ _ hblt, List.getElem_zipWith,
          List.getD_eq_getElem _ _ hb, List.getD_eq_getElem _ _ hbws]
      rw [List.map_congr_left hFi]
      exact map_range'_one_sub
        (fun j => AutoVec.dot (AutoVec.slice ((x0 :: xs').getD b []) j 3)
          (ws.getD b [])) (n - 2)
    rw [hL, hR]
    unfold AutoVec.stack
    rw [if_neg (by simp)]

/-- Claim C3 counterexample: at the empty batch (`B = 0`) the
loop-per-example implementation raises — `jnp.stack` of the empty output
list is a `ValueError` — so it produces no array at all, and the claimed
equality of the two implementations and of the stacked per-row results
fails there.  (In JAX the vectorized implementation on a `(0, n)` batch
succeeds and returns an empty `(0, n-2)` array.) -/
theorem batched_convolve_errors_on_empty_batch :
    AutoVec.manually_batched_convolve [] [] = none := rfl

/-- Claim C3 (amended): for every nonempty batch `xs` of `B ≥ 1` rows of
length `n ≥ 3` and `ws` of `B` weight rows of length 3,
`manually_batched_convolve xs ws` equals
`manually_vectorized_convolve xs ws`, and both equal the successful
`jnp.stack` of `convolve (xs i) (ws i)` over the row indices
`i = 0 .. B-1`; at `B = 0` the loop-per-example implementation instead
raises in `jnp.stack`. -/
theorem batched_eq_vectorized_eq_stacked (xs ws : List (List ℚ)) (n : ℕ)
    (hne : xs ≠ []) (hB : ws.length = xs.length) (hn : 3 ≤ n)
    (hx : ∀ r ∈ xs, r.length = n) (hw : ∀ r ∈ ws, r.length = 3) :
    AutoVec.manually_batched_convolve xs ws
        = AutoVec.manually_vectorized_convolve xs ws ∧
    AutoVec.manually_batched_convolve xs ws
        = some ((List.range xs.length).map
            (fun i => AutoVec.convolve (xs.getD i []) (ws.getD i []))) := by
  refine ⟨batched_eq_vectorized xs ws n hne hB hn hx, ?_⟩
  unfold AutoVec.manually_batched_convolve AutoVec.stack
  rw [if_neg (by simpa using hne)]

/-- Witness for C3 at the notebook batch `xs = stack([arange(5), arange(5)])`,
`ws = stack([[2,3,4],[2,3,4]])`. -/
theorem batched_eq_vectorized_eq_stacked_witness :
    (([[0,1,2,3,4],[0,1,2,3,4]] : List (List ℚ)) ≠ [] ∧
      ∀ r ∈ ([[0,1,2,3,4],[0,1,2,3,4]] : List (List ℚ)), r.length = 5) ∧
    (AutoVec.manually_batched_convolve [[0,1,2,3,4],[0,1,2,3,4]]
          [[2,3,4],[2,3,4]]
        = AutoVec.manually_vectorized_convolve [[0,1,2,3,4],[0,1,2,3,4]]
          [[2,3,4],[2,3,4]] ∧
      AutoVec.manually_batched_convolve [[0,1,2,3,4],[0,1,2,3,4]]
          [[2,3,4],[2,3,4]]
        = some ((List.range
              ([[0,1,2,3,4],[0,1,2,3,4]] : List (List ℚ)).length).map
            (fun i => AutoVec.convolve
              (([[0,1,2,3,4],[0,1,2,3,4]] : List (List ℚ)).getD i [])
              (([[2,3,4],[2,3,4]] : List (List ℚ)).getD i [])))) :=
  ⟨⟨by decide, by decide⟩,
    batched_eq_vectorized_eq_stacked [[0,1,2,3,4],[0,1,2,3,4]]
      [[2,3,4],[2,3,4]] 5 (by decide) rfl (by norm_num) (by decide) (by decide)⟩

/-! ## Claim C8 -/

/-- `transposeGo` on a nonempty family of flat dictionaries sharing the key
list `ks`: entry `i` of the resulting dict maps key `ks i` to the list of
the values at index `i` of every input dictionary, in their original
order. -/
theorem transposeGo_dictOfLeaves {α : Type} [Inhabited α]
    (ks : List String) (v0 : List α) (rest : List (List α))
    (h0 : v0.length = ks.length) (hr : ∀ vs ∈ rest, vs.length = ks.length) :
    Pytrees.transposeGo (Pytrees.dictOfLeaves ks v0)
        (rest.map (Pytrees.dictOfLeaves ks))
      = some (.dictNode ((List.range ks.length).map (fun i =>
          (ks.getD i "", Pytrees.PyTree.listNode
            ((v0 :: rest).map (fun vs => Pytrees.PyTree.leaf (vs.getD i default))))))) := by
  induction ks generalizing v0 rest with
  | nil =>
      have hv0 : v0 = [] := List.length_eq_zero.mp h0
      subst hv0
      simp [Pytrees.dictOfLeaves, Pytrees.transposeGo, Pytrees.isEmptyDictNode,
        List.all_eq_true]
  | cons k ks ih =>
      cases v0 with
      | nil => simp at h0
      | cons a v0' =>
        have h0' : v0'.length = ks.length := by simpa using h0
        have hrt : ∀ vs ∈ rest.map (fun vs => vs.tail), vs.length = ks.length := by
          intro vs hvs
          rw [List.mem_map] at hvs
          obtain ⟨u, hu, rfl⟩ := hvs
          have hu' := hr u hu
          simp [List.length_tail, hu']
        have hheads : (rest.map (Pytrees.dictOfLeaves (k :: ks))).mapM
              (Pytrees.headDictVal k)
            = some (rest.map (fun vs =>
                Pytrees.PyTree.leaf (vs.getD 0 default))) := by
          rw [mapM_map_fuse]
          apply mapM_eq_map_of_forall
          intro vs hvs
          have hl := hr vs hvs
          cases vs with
          | nil => simp at hl
          | cons b vs' => simp [Pytrees.dictOfLeaves, Pytrees.headDictVal]
        have htails : (rest.map (Pytrees.dictOfLeaves (k :: ks))).mapM
              Pytrees.tailDict
            = some ((rest.map (fun vs => vs.tail)).map
                (Pytrees.dictOfLeaves ks)) := by
          rw [mapM_map_fuse]
          rw [List.map_map]
          apply mapM_eq_map_of_forall
          intro vs hvs
          have hl := hr vs hvs
          cases vs with
          | nil => simp at hl
          | cons b vs' => simp [Pytrees.dictOfLeaves, Pytrees.tailDict, Function.comp]
        have ih' := ih v0' (rest.map (fun vs => vs.tail)) h0' hrt
        show Pytrees.transposeGo
            (Pytrees.PyTree.dictNode ((k, Pytrees.PyTree.leaf a) ::
              List.zipWith (fun k v => (k, Pytrees.PyTree.leaf v)) ks v0'))
            (rest.map (Pytrees.dictOfLeaves (k :: ks))) = _
        rw [Pytrees.transposeGo]
        rw [hheads, htails]
        simp only [Option.some_bind]
        rw [show Pytrees.transposeGo
              (Pytrees.PyTree.leaf a)
              (rest.map (fun vs => Pytrees.PyTree.leaf (vs.getD 0 default)))
            = some (Pytrees.PyTree.listNode (Pytrees.PyTree.leaf a ::
                rest.map (fun vs => Pytrees.PyTree.leaf (vs.getD 0 default))))
          from by rw [Pytrees.transposeGo]]
        simp only [Option.some_bind]
        rw [show Pytrees.PyTree.dictNode
              (List.zipWith (fun k v => (k, Pytrees.PyTree.leaf v)) ks v0')
            = Pytrees.dictOfLeaves ks v0' from rfl]
        rw [ih']
        simp only [Option.some_bind, Pytrees.consDict]
        congr 1
        congr 1
        rw [List.length_cons, List.range_succ_eq_map, List.map_cons, List.map_map]
        refine congrArg₂ List.cons ?_ ?_
        · simp
        · apply List.map_congr_left
          intro i _
          simp only [Function.comp_apply, List.getD_cons_succ, List.map_cons,
            List.map_map]
          congr 2
          refine congrArg₂ List.cons rfl ?_
          apply List.map_congr_left
          intro vs _
          simp only [Function.comp_apply, Nat.succ_eq_add_one,
            getD_succ_eq_tail_getD]

/-- Claim C8 counterexample: the claim's description fails for same-key
dictionaries whose values are themselves containers, because
`jax.tree.map` recurses into the values.  For
`[dict(a=[1,2]), dict(a=[3,4])]` — a non-empty list of dictionaries with
the same keys — `tree_transpose` returns `{'a': [[1, 3], [2, 4]]}` and not
the dictionary of per-key value lists `{'a': [[1, 2], [3, 4]]}` that the
claim asserts. -/
theorem tree_transpose_recurses_into_container_values :
    Pytrees.tree_transpose
        [Pytrees.PyTree.dictNode [("a", Pytrees.PyTree.listNode
            [Pytrees.PyTree.leaf (1 : ℤ), Pytrees.PyTree.leaf 2])],
         Pytrees.PyTree.dictNode [("a", Pytrees.PyTree.listNode
            [Pytrees.PyTree.leaf 3, Pytrees.PyTree.leaf 4])]]
      = some (Pytrees.PyTree.dictNode [("a", Pytrees.PyTree.listNode
          [Pytrees.PyTree.listNode
            [Pytrees.PyTree.leaf 1, Pytrees.PyTree.leaf 3],
           Pytrees.PyTree.listNode
            [Pytrees.PyTree.leaf 2, Pytrees.PyTree.leaf 4]])]) ∧
    Pytrees.tree_transpose
        [Pytrees.PyTree.dictNode [("a", Pytrees.PyTree.listNode
            [Pytrees.PyTree.leaf (1 : ℤ), Pytrees.PyTree.leaf 2])],
         Pytrees.PyTree.dictNode [("a", Pytrees.PyTree.listNode
            [Pytrees.PyTree.leaf 3, Pytrees.PyTree.leaf 4])]]
      ≠ some (Pytrees.PyTree.dictNode [("a", Pytrees.PyTree.listNode
          [Pytrees.PyTree.listNode
            [Pytrees.PyTree.leaf 1, Pytrees.PyTree.leaf 2],
           Pytrees.PyTree.listNode
            [Pytrees.PyTree.leaf 3, Pytrees.PyTree.leaf 4]])]) := by
  have h : Pytrees.tree_transpose
        [Pytrees.PyTree.dictNode [("a", Pytrees.PyTree.listNode
            [Pytrees.PyTree.leaf (1 : ℤ), Pytrees.PyTree.leaf 2])],
         Pytrees.PyTree.dictNode [("a", Pytrees.PyTree.listNode
            [Pytrees.PyTree.leaf 3, Pytrees.PyTree.leaf 4])]]
      = some (Pytrees.PyTree.dictNode [("a", Pytrees.PyTree.listNode
          [Pytrees.PyTree.listNode
            [Pytrees.PyTree.leaf 1, Pytrees.PyTree.leaf 3],
           Pytrees.PyTree.listNode
            [Pytrees.PyTree.leaf 2, Pytrees.PyTree.leaf 4]])]) := by
    simp only [Pytrees.tree_transpose, Pytrees.transposeGo, Pytrees.headVal,
      Pytrees.tailList, Pytrees.headDictVal, Pytrees.tailDict,
      Pytrees.isEmptyListNode, Pytrees.isEmptyDictNode, Pytrees.consList,
      Pytrees.consDict, List.mapM_cons, List.mapM_nil, Option.bind_eq_bind,
      Option.some_bind, Option.pure_def, List.all_cons, List.all_nil,
      Bool.and_true, if_true, reduceIte, reduceCtorEq]
  refine ⟨h, ?_⟩
  rw [h]
  simp

/-- Claim C8 (amended): for every non-empty list of *flat* dictionaries —
every value a leaf — that all have the same keys `ks`, `tree_transpose`
returns a single dictionary mapping each key to the list of the values of
the input dictionaries at that key, in their original order.  (For
container-valued dictionaries `jax.tree.map` instead recurses into the
values.) -/
theorem tree_transpose_same_key_dicts {α : Type} [Inhabited α]
    (ks : List String) (vss : List (List α))
    (hne : vss ≠ []) (hlen : ∀ vs ∈ vss, vs.length = ks.length) :
    Pytrees.tree_transpose (vss.map (Pytrees.dictOfLeaves ks))
      = some (.dictNode ((List.range ks.length).map (fun i =>
          (ks.getD i "", Pytrees.PyTree.listNode
            (vss.map (fun vs => Pytrees.PyTree.leaf (vs.getD i default))))))) := by
  rcases vss with _ | ⟨v0, rest⟩
  · exact absurd rfl hne
  · exact transposeGo_dictOfLeaves ks v0 rest (hlen v0 (by simp))
      (fun vs hvs => hlen vs (by simp [hvs]))

/-- Witness for C8 at the notebook example
`episode_steps = [dict(t=1, obs=3), dict(t=2, obs=4)]` (keys in JAX
sorted order: `obs` before `t`), whose transpose is
`{'obs': [3, 4], 't': [1, 2]}`. -/
theorem tree_transpose_same_key_dicts_witness :
    ([[3,1],[4,2]] : List (List ℤ)) ≠ [] ∧
    Pytrees.tree_transpose (([[3,1],[4,2]] : List (List ℤ)).map
        (Pytrees.dictOfLeaves ["obs", "t"]))
      = some (.dictNode ((List.range (["obs", "t"] : List String).length).map
          (fun i => ((["obs", "t"] : List String).getD i "",
            Pytrees.PyTree.listNode (([[3,1],[4,2]] : List (List ℤ)).map
              (fun vs => Pytrees.PyTree.leaf (vs.getD i default))))))) :=
  ⟨by decide,
    tree_transpose_same_key_dicts ["obs", "t"] [[3,1],[4,2]]
      (by decide) (by decide)⟩
